import Mathlib

/-!
Shallow embedding of `src/main.py` (a Flask service that classifies natural-language
Kubernetes queries into intents and dispatches them against the cluster API).

External effects are made explicit:
* the OpenAI classifier call is an oracle value (`LLMOutcome`); its returned text is
  abstracted by its JSON-parse outcome (`CText`), which is all `create_query` inspects;
* the Kubernetes client (`v1` / `apps_v1`) is a record of read operations (`K8s`),
  each returning `Except ApiErr _` to model `ApiException` and generic exceptions;
* every cluster/classifier call made during a request is recorded in a trace
  (`List Call`);
* Python string operations are re-implemented on `List Char` so that every
  definition evaluates inside the kernel (`lower`, `strip`, `startswith`,
  `replace(pat, "")`, `in`, `join`).
-/

set_option maxRecDepth 8000

namespace Cleric

/-! ### Python string primitives -/

/-- `listStarts pat l` is true when `pat` is an initial segment of `l`. -/
def listStarts : List Char → List Char → Bool
  | [], _ => true
  | _ :: _, [] => false
  | p :: ps, c :: cs => p == c && listStarts ps cs

/-- Fuel-driven core of Python's `s.replace(pat, "")`: removes every non-overlapping
occurrence of `pat`, scanning left to right. The fuel is the length of the scanned
list, which bounds the number of steps. -/
def removeAllFuel (pat : List Char) : Nat → List Char → List Char
  | _, [] => []
  | 0, l => l
  | fuel + 1, c :: cs =>
    if listStarts pat (c :: cs) then
      removeAllFuel pat fuel (List.drop (pat.length - 1) cs)
    else
      c :: removeAllFuel pat fuel cs

/-- Python `s.replace(pat, "")`. -/
def strRemoveAll (s pat : String) : String :=
  String.mk (removeAllFuel pat.data s.data.length s.data)

/-- `listHas l pat`: `pat` occurs as a contiguous sublist of `l`. -/
def listHas : List Char → List Char → Bool
  | [], pat => pat.isEmpty
  | c :: cs, pat => listStarts pat (c :: cs) || listHas cs pat

/-- Python `pat in s` (substring test). -/
def strHas (s pat : String) : Bool := listHas s.data pat.data

/-- Python `s.lower()` (ASCII case folding, which covers every string the program
manipulates). -/
def strLower (s : String) : String := String.mk (s.data.map Char.toLower)

/-- Python `s.startswith(pat)`. -/
def strStarts (s pat : String) : Bool := listStarts pat.data s.data

/-- Python whitespace stripped by `str.strip()`. -/
def pyIsSpace (c : Char) : Bool :=
  c == ' ' || c == '\t' || c == '\n' || c == '\r' || c == '\x0b' || c == '\x0c'

/-- Python `s.strip()`. -/
def strTrim (s : String) : String :=
  String.mk (((s.data.dropWhile pyIsSpace).reverse.dropWhile pyIsSpace).reverse)

/-- Python `sep.join(items)`. -/
def joinWith (sep : String) : List String → String
  | [] => ""
  | [x] => x
  | x :: y :: rest => x ++ sep ++ joinWith sep (y :: rest)

/-! ### Parameter bags (the JSON `parameters` object) -/

/-- A JSON object of string key/value pairs, in insertion order. -/
abbrev ParamBag := List (String × String)

/-- Python `bag.get(k, d)`. -/
def bagGet (p : ParamBag) (k d : String) : String :=
  match p with
  | [] => d
  | (k0, v) :: rest => if k0 = k then v else bagGet rest k d

/-- Python `bag[k] = v` (update the existing key, or append it). -/
def bagSet (p : ParamBag) (k v : String) : ParamBag :=
  match p with
  | [] => [(k, v)]
  | (k0, v0) :: rest => if k0 = k then (k, v) :: rest else (k0, v0) :: bagSet rest k v

/-! ### Cluster data model (the fields of the Kubernetes objects that
`src/main.py` actually reads) -/

structure ContainerPort where
  container_port : Nat
  protocol : String
  deriving DecidableEq

structure HttpGetAction where
  path : String
  deriving DecidableEq

structure Probe where
  http_get : Option HttpGetAction
  deriving DecidableEq

structure Container where
  ports : List ContainerPort
  readiness_probe : Option Probe
  deriving DecidableEq

structure Deployment where
  name : String
  ns : String
  labels : List (String × String)
  containers : List Container
  spec_replicas : Option Nat
  strategy : String
  available_replicas : Option Nat
  deriving DecidableEq

structure Pod where
  name : String
  ns : String
  phase : String
  deriving DecidableEq

structure Service where
  name : String
  ns : String
  deriving DecidableEq

/-- A resource quota's `status.hard` mapping. -/
abbrev Quota := List (String × String)

/-- Failure of a Kubernetes client call: `ApiException` (with HTTP status and
reason) or any other exception. -/
inductive ApiErr where
  | apiException (status : Nat) (reason : String)
  | other (message : String)
  deriving DecidableEq

/-- One external call made while handling a request (classifier or cluster read). -/
inductive Call where
  | classifier
  | list_namespace
  | list_pod_for_all_namespaces
  | read_namespace (ns : String)
  | list_namespaced_pod (ns : String)
  | list_node
  | read_namespaced_pod (ns name : String)
  | list_namespaced_deployment (ns : String)
  | list_service_for_all_namespaces
  | list_namespaced_service (ns : String)
  | read_namespaced_pod_log (ns name : String)
  | read_namespaced_deployment (ns name : String)
  | list_namespaced_resource_quota (ns : String)
  deriving DecidableEq

/-- The Kubernetes read capability (`v1` and `apps_v1` client objects).
`initialized` is false when `config.load_kube_config()` failed and the module-level
clients are `None`. -/
structure K8s where
  initialized : Bool
  list_namespace : Except ApiErr (List String)
  list_pod_for_all_namespaces : Except ApiErr (List Pod)
  read_namespace : String → Except ApiErr Unit
  list_namespaced_pod : String → Except ApiErr (List Pod)
  list_node : Except ApiErr (List String)
  read_namespaced_pod : String → String → Except ApiErr Pod
  list_namespaced_deployment : String → Except ApiErr (List Deployment)
  list_service_for_all_namespaces : Except ApiErr (List Service)
  list_namespaced_service : String → Except ApiErr (List Service)
  read_namespaced_pod_log : String → String → Except ApiErr String
  read_namespaced_deployment : String → String → Except ApiErr Deployment
  list_namespaced_resource_quota : String → Except ApiErr (List Quota)

/-- Cluster state used to build a well-behaved `K8s` stub whose reads succeed and
whose lookups answer 404 when the object is absent. -/
structure Cluster where
  namespaces : List String
  pods : List Pod
  nodes : List String
  deployments : List Deployment
  services : List Service

def K8s.ofCluster (c : Cluster) : K8s where
  initialized := true
  list_namespace := .ok c.namespaces
  list_pod_for_all_namespaces := .ok c.pods
  read_namespace := fun n =>
    if c.namespaces.contains n then .ok () else .error (.apiException 404 "Not Found")
  list_namespaced_pod := fun n => .ok (c.pods.filter (fun p => p.ns == n))
  list_node := .ok c.nodes
  read_namespaced_pod := fun n name =>
    match c.pods.find? (fun p => p.ns == n && p.name == name) with
    | some p => .ok p
    | none => .error (.apiException 404 "Not Found")
  list_namespaced_deployment := fun n => .ok (c.deployments.filter (fun d => d.ns == n))
  list_service_for_all_namespaces := .ok c.services
  list_namespaced_service := fun n => .ok (c.services.filter (fun s => s.ns == n))
  read_namespaced_pod_log := fun _ _ => .error (.apiException 404 "Not Found")
  read_namespaced_deployment := fun n name =>
    match c.deployments.find? (fun d => d.ns == n && d.name == name) with
    | some d => .ok d
    | none => .error (.apiException 404 "Not Found")
  list_namespaced_resource_quota := fun _ => .ok []

/-! ### HTTP-level request/response model -/

/-- The JSON body of a `POST /query` request: `request_data.get('query', "")`.
`none` models a body without the `query` key. -/
structure RequestData where
  query : Option String

/-- What the Flask view returns: a 200 `QueryResponse(query, answer)` JSON body, or
a `jsonify({"error": message}), status` pair. -/
inductive HttpResult where
  | response (query answer : String)
  | failureResponse (message : String) (status : Nat)
  deriving DecidableEq

/-- The classifier's returned text, abstracted by what `json.loads` makes of it:
`malformed` when parsing raises, otherwise a JSON object with optional `intent`
and `parameters` fields. -/
inductive CText where
  | malformed
  | object (intent : Option String) (parameters : Option ParamBag)
  deriving DecidableEq

/-- Outcome of the `openai.ChatCompletion.create` call: a returned message, or an
exception inside the call. -/
inductive LLMOutcome where
  | success (text : CText)
  | failure
  deriving DecidableEq

/-! ### The intent pipeline of `src/main.py` -/

/-- The closed intent set (`INTENTS`, src/main.py:21). -/
def INTENTS : List String :=
  ["ListNamespaces", "ListPods", "ListNodes", "GetPodStatus", "ListDeployments",
   "ListServices", "GetPodLogs", "DescribeDeployment", "ListNodeNames",
   "GetResourceQuota", "GetContainerPort", "GetReadinessProbePath",
   "GetEnvironmentVariable", "GetVolumeMountPath", "GetPodsAssociatedWithSecret",
   "GetServiceNamespace", "GetDeploymentStatus", "Unknown"]

/-- The component vocabulary (`COMPONENTS`, src/main.py:43). -/
def COMPONENTS : List String :=
  ["core", "database", "jobservice", "portal", "redis", "registry", "trivy"]

/-- `classify_query` (src/main.py:69): forwards the model's reply; if the OpenAI
call raises, it returns the literal fallback
`'\x7b"intent": "Unknown", "parameters": \x7b\x7d\x7d'`, which parses to intent
`Unknown` with empty parameters. -/
def classify_query (llm : LLMOutcome) : CText :=
  match llm with
  | .success t => t
  | .failure => .object (some "Unknown") (some [])

/-- `validate_parameters` (src/main.py:259). -/
def validate_parameters (intent : String) (parameters : ParamBag) : Bool × String :=
  if intent ∈ ["GetContainerPort", "GetReadinessProbePath", "GetEnvironmentVariable",
      "GetVolumeMountPath"] then
    let component := strLower (bagGet parameters "component" "")
    let valid_components := COMPONENTS ++ ["harbor-redis"]
    if component ∉ valid_components then
      (false, "Invalid component name '" ++ component ++ "'. Valid components are: " ++
        joinWith ", " valid_components ++ ".")
    else (true, "")
  else if intent = "GetPodsAssociatedWithSecret" then
    let secret_name := strTrim (bagGet parameters "secret_name" "")
    if secret_name = "" then (false, "Secret name not provided in the query.")
    else (true, "")
  else if intent ∈ ["GetPodStatus", "GetPodLogs"] then
    let pod_name := strTrim (bagGet parameters "pod_name" "")
    if pod_name = "" then (false, "Pod name not provided in the query.")
    else (true, "")
  else if intent ∈ ["GetServiceNamespace", "DescribeDeployment", "GetDeploymentStatus"] then
    let deployment_name := strTrim (bagGet parameters "deployment_name" "")
    if deployment_name = "" then (false, "Deployment name not provided in the query.")
    else (true, "")
  else (true, "")

/-- `preprocess_parameters` (src/main.py:280): lowercases the component, and when it
starts with `harbor-` writes back `component.replace("harbor-", "")`. -/
def preprocess_parameters (intent : String) (parameters : ParamBag) : ParamBag :=
  if intent ∈ ["GetContainerPort", "GetReadinessProbePath", "GetEnvironmentVariable",
      "GetVolumeMountPath"] then
    let component := strLower (bagGet parameters "component" "")
    if strStarts component "harbor-" = true then
      bagSet parameters "component" (strRemoveAll component "harbor-")
    else parameters
  else parameters

/-- Rendering of one container port, `f"\x7bp.container_port\x7d/\x7bp.protocol\x7d"`. -/
def showPort (p : ContainerPort) : String := toString p.container_port ++ "/" ++ p.protocol

/-- Python `f"\x7bn\x7d"` for a possibly-`None` replica count. -/
def pyShowOptNat : Option Nat → String
  | none => "None"
  | some n => toString n

/-- The `for deploy in deployments.items: ... break / else:` scan of the
`GetContainerPort` handler (src/main.py:499): the first deployment whose
`app.kubernetes.io/component` label (lowercased) equals the normalized component
and whose first container has a non-empty port list produces the answer;
otherwise the scan falls through (`none`). -/
def findPortAnswer (compNorm component : String) : List Deployment → Option String
  | [] => none
  | d :: rest =>
    if strLower (bagGet d.labels "app.kubernetes.io/component" "") = compNorm then
      match d.containers with
      | [] => findPortAnswer compNorm component rest
      | container :: _ =>
        match container.ports with
        | [] => findPortAnswer compNorm component rest
        | p :: ps =>
          some ("The container port(s) for '" ++ component ++ "' are: " ++
            joinWith ", " ((p :: ps).map showPort))
    else findPortAnswer compNorm component rest

/-- The analogous scan of the `GetReadinessProbePath` handler (src/main.py:524):
the break additionally requires a readiness probe with an `http_get` action. -/
def findProbeAnswer (compNorm component : String) : List Deployment → Option String
  | [] => none
  | d :: rest =>
    if strLower (bagGet d.labels "app.kubernetes.io/component" "") = compNorm then
      match d.containers with
      | [] => findProbeAnswer compNorm component rest
      | container :: _ =>
        match container.readiness_probe with
        | none => findProbeAnswer compNorm component rest
        | some probe =>
          match probe.http_get with
          | none => findProbeAnswer compNorm component rest
          | some hg =>
            some ("The readiness probe path for '" ++ component ++ "' is: " ++ hg.path)
    else findProbeAnswer compNorm component rest

/-- The `elif` dispatch chain of `create_query` (src/main.py:325-567), after
validation and preprocessing. `Except.error ()` models an exception escaping the
branch (to be caught by the view's outermost `except Exception`); the `List Call`
is the sequence of Kubernetes reads issued. -/
def dispatch (intent : String) (params : ParamBag) (k8s : K8s) :
    Except Unit String × List Call :=
  if intent = "ListNamespaces" then
    match k8s.list_namespace with
    | .ok items =>
      (.ok ("There are " ++ toString items.length ++ " namespaces in the cluster."),
        [.list_namespace])
    | .error _ => (.error (), [.list_namespace])
  else if intent = "ListPods" then
    let nsp := bagGet params "namespace" "default"
    if strLower nsp = "all" then
      match k8s.list_pod_for_all_namespaces with
      | .ok pods =>
        (.ok ("There are " ++ toString pods.length ++ " pods in the entire cluster."),
          [.list_pod_for_all_namespaces])
      | .error _ =>
        (.ok "An error occurred while fetching pods across all namespaces.",
          [.list_pod_for_all_namespaces])
    else
      match k8s.read_namespace nsp with
      | .error (.apiException status reason) =>
        (.ok (if status = 404 then "Namespace '" ++ nsp ++ "' not found."
          else "An error occurred: " ++ reason), [.read_namespace nsp])
      | .error (.other _) =>
        (.ok "An error occurred while fetching pods.", [.read_namespace nsp])
      | .ok _ =>
        match k8s.list_namespaced_pod nsp with
        | .ok pods =>
          (.ok ("There are " ++ toString pods.length ++ " pods in the '" ++ nsp ++
            "' namespace."), [.read_namespace nsp, .list_namespaced_pod nsp])
        | .error (.apiException status reason) =>
          (.ok (if status = 404 then "Namespace '" ++ nsp ++ "' not found."
            else "An error occurred: " ++ reason),
            [.read_namespace nsp, .list_namespaced_pod nsp])
        | .error (.other _) =>
          (.ok "An error occurred while fetching pods.",
            [.read_namespace nsp, .list_namespaced_pod nsp])
  else if intent = "ListNodes" then
    match k8s.list_node with
    | .ok nodes =>
      (.ok ("There are " ++ toString nodes.length ++ " nodes in the cluster."), [.list_node])
    | .error _ => (.error (), [.list_node])
  else if intent = "GetPodStatus" then
    let pod_name := bagGet params "pod_name" ""
    let nsp := bagGet params "namespace" "default"
    if pod_name ≠ "" then
      match k8s.read_namespaced_pod nsp pod_name with
      | .ok pod =>
        (.ok ("The status of the pod '" ++ pod_name ++ "' in namespace '" ++ nsp ++
          "' is " ++ pod.phase ++ "."), [.read_namespaced_pod nsp pod_name])
      | .error (.apiException status reason) =>
        (.ok (if status = 404 then
            "Pod '" ++ pod_name ++ "' not found in the namespace '" ++ nsp ++ "'."
          else "An error occurred: " ++ reason), [.read_namespaced_pod nsp pod_name])
      | .error (.other _) =>
        (.ok "An error occurred while fetching pod status.",
          [.read_namespaced_pod nsp pod_name])
    else (.ok "Pod name not provided in the query.", [])
  else if intent = "ListDeployments" then
    let nsp := bagGet params "namespace" "default"
    match k8s.list_namespaced_deployment nsp with
    | .ok deps =>
      (.ok ("There are " ++ toString deps.length ++ " deployments in the '" ++ nsp ++
        "' namespace."), [.list_namespaced_deployment nsp])
    | .error (.apiException status reason) =>
      (.ok (if status = 404 then "Namespace '" ++ nsp ++ "' not found."
        else "An error occurred: " ++ reason), [.list_namespaced_deployment nsp])
    | .error (.other _) =>
      (.ok "An error occurred while fetching deployments.",
        [.list_namespaced_deployment nsp])
  else if intent = "ListServices" then
    let service_name := bagGet params "service_name" ""
    if service_name ≠ "" then
      match k8s.list_service_for_all_namespaces with
      | .ok services =>
        match services.find? (fun svc => strLower svc.name == strLower service_name) with
        | some svc =>
          (.ok ("The service '" ++ service_name ++ "' is deployed in the '" ++ svc.ns ++
            "' namespace."), [.list_service_for_all_namespaces])
        | none =>
          (.ok ("Service '" ++ service_name ++ "' not found in any namespace."),
            [.list_service_for_all_namespaces])
      | .error _ =>
        (.ok "An error occurred while fetching the service details.",
          [.list_service_for_all_namespaces])
    else
      let nsp := bagGet params "namespace" "default"
      match k8s.read_namespace nsp with
      | .error (.apiException status reason) =>
        (.ok (if status = 404 then "Namespace '" ++ nsp ++ "' not found."
          else "An error occurred: " ++ reason), [.read_namespace nsp])
      | .error (.other _) =>
        (.ok "An error occurred while fetching services.", [.read_namespace nsp])
      | .ok _ =>
        match k8s.list_namespaced_service nsp with
        | .ok services =>
          (.ok ("There are " ++ toString services.length ++ " services in the '" ++
            nsp ++ "' namespace."), [.read_namespace nsp, .list_namespaced_service nsp])
        | .error (.apiException status reason) =>
          (.ok (if status = 404 then "Namespace '" ++ nsp ++ "' not found."
            else "An error occurred: " ++ reason),
            [.read_namespace nsp, .list_namespaced_service nsp])
        | .error (.other _) =>
          (.ok "An error occurred while fetching services.",
            [.read_namespace nsp, .list_namespaced_service nsp])
  else if intent = "GetPodLogs" then
    let pod_name := bagGet params "pod_name" ""
    let nsp := bagGet params "namespace" "default"
    if pod_name ≠ "" then
      match k8s.read_namespaced_pod_log nsp pod_name with
      | .ok logs =>
        (.ok ("Logs for pod '" ++ pod_name ++ "' in namespace '" ++ nsp ++ "':\n" ++
          String.mk (logs.data.take 1000) ++
          (if logs.data.length > 1000 then "..." else "")),
          [.read_namespaced_pod_log nsp pod_name])
      | .error (.apiException status reason) =>
        (.ok (if status = 404 then
            "Pod '" ++ pod_name ++ "' not found in the namespace '" ++ nsp ++ "'."
          else "Could not fetch logs: " ++ reason), [.read_namespaced_pod_log nsp pod_name])
      | .error (.other _) =>
        (.ok "An error occurred while fetching pod logs.",
          [.read_namespaced_pod_log nsp pod_name])
    else (.ok "Pod name not provided in the query.", [])
  else if intent = "DescribeDeployment" then
    let deployment_name := bagGet params "deployment_name" ""
    let nsp := bagGet params "namespace" "default"
    if deployment_name ≠ "" then
      match k8s.read_namespaced_deployment nsp deployment_name with
      | .ok deployment =>
        (.ok ("Deployment '" ++ deployment_name ++ "' in namespace '" ++ nsp ++
          "':\nReplicas: " ++ pyShowOptNat deployment.spec_replicas ++ ", Strategy: " ++
          deployment.strategy), [.read_namespaced_deployment nsp deployment_name])
      | .error (.apiException status reason) =>
        (.ok (if status = 404 then
            "Deployment '" ++ deployment_name ++ "' not found in the namespace '" ++
              nsp ++ "'."
          else "Could not describe deployment: " ++ reason),
          [.read_namespaced_deployment nsp deployment_name])
      | .error (.other _) =>
        (.ok "An error occurred while describing the deployment.",
          [.read_namespaced_deployment nsp deployment_name])
    else (.ok "Deployment name not provided in the query.", [])
  else if intent = "ListNodeNames" then
    match k8s.list_node with
    | .ok nodes => (.ok ("Nodes in the cluster: " ++ joinWith ", " nodes), [.list_node])
    | .error _ => (.error (), [.list_node])
  else if intent = "GetResourceQuota" then
    let nsp := bagGet params "namespace" "default"
    match k8s.list_namespaced_resource_quota nsp with
    | .ok quotas =>
      match quotas with
      | [] =>
        (.ok ("No resource quota set for namespace '" ++ nsp ++ "'."),
          [.list_namespaced_resource_quota nsp])
      | q :: _ =>
        (.ok ("Resource quota for namespace '" ++ nsp ++ "':\n" ++
          joinWith "\n" (q.map (fun kv => kv.1 ++ ": " ++ kv.2))),
          [.list_namespaced_resource_quota nsp])
    | .error (.apiException status reason) =>
      (.ok (if status = 404 then "Namespace '" ++ nsp ++ "' not found."
        else "An error occurred: " ++ reason), [.list_namespaced_resource_quota nsp])
    | .error (.other _) =>
      (.ok "An error occurred while fetching resource quotas.",
        [.list_namespaced_resource_quota nsp])
  else if intent = "GetContainerPort" then
    let component := bagGet params "component" ""
    if component ≠ "" then
      match k8s.list_namespaced_deployment "default" with
      | .ok deps =>
        match findPortAnswer (strLower component) component deps with
        | some answer => (.ok answer, [.list_namespaced_deployment "default"])
        | none =>
          (.ok ("No deployment found for component '" ++ component ++ "'."),
            [.list_namespaced_deployment "default"])
      | .error _ =>
        (.ok "An error occurred while fetching container ports.",
          [.list_namespaced_deployment "default"])
    else (.ok "Component name not provided in the query.", [])
  else if intent = "GetReadinessProbePath" then
    let component := bagGet params "component" ""
    if component ≠ "" then
      match k8s.list_namespaced_deployment "default" with
      | .ok deps =>
        match findProbeAnswer (strLower component) component deps with
        | some answer => (.ok answer, [.list_namespaced_deployment "default"])
        | none =>
          (.ok ("No deployment found for component '" ++ component ++ "'."),
            [.list_namespaced_deployment "default"])
      | .error _ =>
        (.ok "An error occurred while fetching readiness probe path.",
          [.list_namespaced_deployment "default"])
    else (.ok "Component name not provided in the query.", [])
  else if intent = "GetDeploymentStatus" then
    let deployment_name := bagGet params "deployment_name" ""
    let nsp := bagGet params "namespace" "default"
    if deployment_name ≠ "" then
      match k8s.read_namespaced_deployment nsp deployment_name with
      | .ok deployment =>
        (.ok ("Deployment '" ++ deployment_name ++ "' in namespace '" ++ nsp ++
          "' has " ++ toString (deployment.available_replicas.getD 0) ++ "/" ++
          toString (deployment.spec_replicas.getD 0) ++ " replicas available."),
          [.read_namespaced_deployment nsp deployment_name])
      | .error (.apiException status reason) =>
        (.ok (if status = 404 then
            "Deployment '" ++ deployment_name ++ "' not found in the namespace '" ++
              nsp ++ "'."
          else "Could not fetch deployment status: " ++ reason),
          [.read_namespaced_deployment nsp deployment_name])
      | .error (.other _) =>
        (.ok "An error occurred while fetching deployment status.",
          [.read_namespaced_deployment nsp deployment_name])
    else (.ok "Deployment name not provided in the query.", [])
  else if intent = "Unknown" then
    (.ok "I'm sorry, I didn't understand your query. Could you please rephrase it?", [])
  else
    (.ok "Query not recognized.", [])

/-- The `POST /query` view `create_query` (src/main.py:288): extract and strip the
query text, bail out with a 500 when the Kubernetes clients never initialized,
classify, parse, validate, preprocess, dispatch. A `json.loads` failure, or any
exception escaping a handler, reaches the view's outermost `except Exception`,
which answers `jsonify(\x7b"error": "An unexpected error occurred"\x7d), 500`. -/
def create_query (req : RequestData) (llm : LLMOutcome) (k8s : K8s) :
    HttpResult × List Call :=
  let query := strTrim (req.query.getD "")
  if k8s.initialized = false then
    (.failureResponse "Kubernetes client not initialized" 500, [])
  else
    match classify_query llm with
    | .malformed => (.failureResponse "An unexpected error occurred" 500, [.classifier])
    | .object intentOpt paramsOpt =>
      let intent := intentOpt.getD "Unknown"
      let params0 := paramsOpt.getD []
      let v := validate_parameters intent params0
      if v.1 = false then (.response query v.2, [.classifier])
      else
        let params := preprocess_parameters intent params0
        let r := dispatch intent params k8s
        match r.1 with
        | .ok answer => (.response query answer, Call.classifier :: r.2)
        | .error _ =>
          (.failureResponse "An unexpected error occurred" 500, Call.classifier :: r.2)

/-! ### Shared helper lemmas and concrete stubs -/

theorem bagGet_bagSet (p : ParamBag) (k v d : String) : bagGet (bagSet p k v) k d = v := by
  induction p with
  | nil => simp [bagSet, bagGet]
  | cons kv rest ih =>
    rcases kv with ⟨k0, v0⟩
    by_cases h : k0 = k
    · simp [bagSet, bagGet, h]
    · simp [bagSet, bagGet, h, ih]

/-- `preprocess_parameters` leaves a bag alone when its (lowercased) component does
not start with the vendor prefix. -/
theorem preprocess_id_of_no_harbor (intent : String) (q : ParamBag)
    (h : strStarts (strLower (bagGet q "component" "")) "harbor-" = false) :
    preprocess_parameters intent q = q := by
  unfold preprocess_parameters
  split
  · dsimp only
    rw [h]
    simp
  · rfl

/-- A deployment the `GetContainerPort` scan cannot break on: no containers, or a
first container with an empty port list. -/
def lacksPortData (d : Deployment) : Bool :=
  match d.containers with
  | [] => true
  | c :: _ => c.ports.isEmpty

/-- A deployment the `GetReadinessProbePath` scan cannot break on: no containers,
no readiness probe, or a probe without an `http_get` action. -/
def lacksProbePath (d : Deployment) : Bool :=
  match d.containers with
  | [] => true
  | c :: _ =>
    match c.readiness_probe with
    | none => true
    | some probe => probe.http_get.isNone

theorem findPortAnswer_eq_none (compNorm component : String) (l : List Deployment)
    (h : ∀ d ∈ l,
      strLower (bagGet d.labels "app.kubernetes.io/component" "") ≠ compNorm ∨
        lacksPortData d = true) :
    findPortAnswer compNorm component l = none := by
  induction l with
  | nil => rfl
  | cons d rest ih =>
    have hd := h d (List.mem_cons_self d rest)
    have hrest := fun x hx => h x (List.mem_cons_of_mem d hx)
    unfold findPortAnswer
    by_cases hm : strLower (bagGet d.labels "app.kubernetes.io/component" "") = compNorm
    · rw [if_pos hm]
      rcases hd with hne | hl
      · exact absurd hm hne
      · unfold lacksPortData at hl
        rcases hc : d.containers with _ | ⟨c0, cs⟩
        · exact ih hrest
        · rw [hc] at hl
          dsimp only at hl
          dsimp only
          rw [List.isEmpty_iff.mp hl]
          exact ih hrest
    · rw [if_neg hm]
      exact ih hrest

theorem findProbeAnswer_eq_none (compNorm component : String) (l : List Deployment)
    (h : ∀ d ∈ l,
      strLower (bagGet d.labels "app.kubernetes.io/component" "") ≠ compNorm ∨
        lacksProbePath d = true) :
    findProbeAnswer compNorm component l = none := by
  induction l with
  | nil => rfl
  | cons d rest ih =>
    have hd := h d (List.mem_cons_self d rest)
    have hrest := fun x hx => h x (List.mem_cons_of_mem d hx)
    unfold findProbeAnswer
    by_cases hm : strLower (bagGet d.labels "app.kubernetes.io/component" "") = compNorm
    · rw [if_pos hm]
      rcases hd with hne | hl
      · exact absurd hm hne
      · unfold lacksProbePath at hl
        rcases hc : d.containers with _ | ⟨c0, cs⟩
        · exact ih hrest
        · rw [hc] at hl
          dsimp only at hl
          dsimp only
          rcases hp : c0.readiness_probe with _ | pr
          · dsimp only
            exact ih hrest
          · rw [hp] at hl
            dsimp only at hl
            dsimp only
            rw [Option.isNone_iff_eq_none.mp hl]
            exact ih hrest
    · rw [if_neg hm]
      exact ih hrest

/-- None of the seven vocabulary names carries the vendor prefix. -/
theorem comps_no_harbor : ∀ x ∈ COMPONENTS, strStarts x "harbor-" = false := by decide

/-- An empty cluster and the well-behaved client built from it. -/
def emptyCluster : Cluster := ⟨[], [], [], [], []⟩

def stubK8s : K8s := K8s.ofCluster emptyCluster

/-! ### Concrete stub clusters used by the claim theorems -/

/-- A deployment labeled `component=core` in the `default` namespace exposing
container port 8080/TCP (the C3 scenario's ClusterReader stub). -/
def coreDeploy : Deployment :=
  ⟨"harbor-core", "default", [("app.kubernetes.io/component", "core")],
    [⟨[⟨8080, "TCP"⟩], some ⟨some ⟨"/api/v2.0/ping"⟩⟩⟩], some 1, "RollingUpdate", some 1⟩

def harborCluster : Cluster := ⟨["default"], [], [], [coreDeploy], []⟩

/-- A deployment labeled `component=redis` in the `default` namespace exposing
container port 8080/TCP. -/
def redisDeploy : Deployment :=
  ⟨"harbor-redis", "default", [("app.kubernetes.io/component", "redis")],
    [⟨[⟨8080, "TCP"⟩], none⟩], some 1, "RollingUpdate", some 1⟩

def redisCluster : Cluster := ⟨["default"], [], [], [redisDeploy], []⟩

/-- A deployment labeled `component=core` in the `default` namespace whose single
container has no ports and no readiness probe. -/
def portlessDeploy : Deployment :=
  ⟨"harbor-core", "default", [("app.kubernetes.io/component", "core")],
    [⟨[], none⟩], some 1, "RollingUpdate", some 1⟩

def portlessCluster : Cluster := ⟨["default"], [], [], [portlessDeploy], []⟩

/-- A deployment labeled `component=core` with ports, living in namespace `prod`
rather than `default`. -/
def prodCoreDeploy : Deployment :=
  ⟨"harbor-core", "prod", [("app.kubernetes.io/component", "core")],
    [⟨[⟨8080, "TCP"⟩], some ⟨some ⟨"/api/v2.0/ping"⟩⟩⟩], some 1, "RollingUpdate", some 1⟩

def prodCluster : Cluster := ⟨["default", "prod"], [], [], [prodCoreDeploy], []⟩

/-- Three running pods (the C4 scenario stub; the `Pod` embedding carries no
secret references because no code path of `src/main.py` ever reads them). -/
def secretCluster : Cluster :=
  ⟨["default"],
    [⟨"harbor-core-abc", "default", "Running"⟩, ⟨"harbor-db-1", "default", "Running"⟩,
      ⟨"harbor-portal-xyz", "default", "Running"⟩], [], [], []⟩

/-- Forty-two pods across two namespaces (the C7 scenario stub). -/
def cluster42 : Cluster :=
  ⟨["default", "kube-system"],
    (List.range 40).map (fun i => ⟨"pod" ++ toString i, "default", "Running"⟩) ++
      [⟨"dns-1", "kube-system", "Running"⟩, ⟨"dns-2", "kube-system", "Running"⟩],
    [], [], []⟩

/-- A client whose `list_namespace` raises a generic transport error (the C6
scenario stub). -/
def flakyK8s : K8s :=
  { K8s.ofCluster emptyCluster with
    list_namespace := .error (.other "connection refused: https://10.0.0.1:6443/api/v1/namespaces") }

/-! ### Claim C4 -/

/-- Claim C4 (code bug): `GetPodsAssociatedWithSecret` is declared in `INTENTS`, is
given few-shot examples in the classifier prompt, and has a validation rule
demanding a non-empty `secret_name` — yet the dispatch chain has no branch for it.
A validated classification with `secret_name="harbor-database-secret"` against a
cluster of three pods falls through to the generic `"Query not recognized."`
answer and performs no ClusterReader call, instead of scanning pods and naming the
associated ones. -/
theorem c4_missing_secret_handler :
    create_query ⟨some "Which pod(s) associate with the harbor database secret?"⟩
        (.success (.object (some "GetPodsAssociatedWithSecret")
          (some [("secret_name", "harbor-database-secret")])))
        (K8s.ofCluster secretCluster) =
      (.response "Which pod(s) associate with the harbor database secret?"
        "Query not recognized.", [Call.classifier]) := by
  decide

/-! ### Claim C1 -/

/-- Claim C1 counterexample: the claim says an unparseable classifier output yields
Intent=Unknown with no error propagated, and an out-of-vocabulary intent is coerced
to Unknown. In the code, `json.loads` failure escapes to the outermost
`except Exception`, so the caller receives an HTTP 500 error body — not the
Unknown-intent answer; and an out-of-vocabulary intent name (here
`"LaunchMissiles"`) is dispatched as-is and produces the fallback
`"Query not recognized."`, which differs from the Unknown intent's answer. -/
theorem c1_counterexample :
    create_query ⟨some "hello"⟩ (.success .malformed) stubK8s =
      (.failureResponse "An unexpected error occurred" 500, [Call.classifier]) ∧
    create_query ⟨some "hello"⟩ (.success (.object (some "LaunchMissiles") (some [])))
        stubK8s =
      (.response "hello" "Query not recognized.", [Call.classifier]) := by
  constructor
  · decide
  · decide

/-! ### Claim C3 -/

/-- Claim C3 counterexample: with the classifier stub returning
`GetContainerPort`/`component="harbor-core"` and a ClusterReader stub holding a
deployment labeled `component=core` exposing 8080/TCP, the code does NOT strip the
prefix and answer with the port: validation runs before normalization, rejects
`harbor-core`, answers with the invalid-component message, makes no ClusterReader
call, and the answer does not contain `"8080/TCP"`. -/
theorem c3_counterexample :
    create_query ⟨some "What is the container port for harbor-core?"⟩
        (.success (.object (some "GetContainerPort") (some [("component", "harbor-core")])))
        (K8s.ofCluster harborCluster) =
      (.response "What is the container port for harbor-core?"
        "Invalid component name 'harbor-core'. Valid components are: core, database, jobservice, portal, redis, registry, trivy, harbor-redis.",
        [Call.classifier]) ∧
    strHas
      "Invalid component name 'harbor-core'. Valid components are: core, database, jobservice, portal, redis, registry, trivy, harbor-redis."
      "8080/TCP" = false := by
  constructor
  · decide
  · decide

/-! ### Claim C5 -/

/-- Claim C5 counterexample: the claim says an empty query is answered with
MalformedRequest without invoking the classifier. In the code there is no such
check: the empty query is classified (the trace records the classifier call) and
the request completes as a normal 200 conversational response. -/
theorem c5_counterexample :
    create_query ⟨some ""⟩ (.success (.object (some "Unknown") (some []))) stubK8s =
      (.response ""
        "I'm sorry, I didn't understand your query. Could you please rephrase it?",
        [Call.classifier]) := by
  decide

/-! ### Claim C6 -/

/-- Claim C6 counterexample: a generic transport error in `list_namespace` is not
caught by the `ListNamespaces` handler (it has no try/except), so the outcome is
the outermost handler's HTTP 500 error body — not an HTTP 200 whose answer is a
generic apology. (The raw upstream text is indeed absent from the body, but the
status and shape contradict the claim.) -/
theorem c6_counterexample :
    create_query ⟨some "How many namespaces are there in the cluster?"⟩
        (.success (.object (some "ListNamespaces") (some []))) flakyK8s =
      (.failureResponse "An unexpected error occurred" 500,
        [Call.classifier, Call.list_namespace]) := by
  decide

/-! ### Claim C8 -/

/-- Claim C8 counterexample: normalization is not idempotent. `str.replace`
removes every occurrence of `"harbor-"`, and removal can splice a new leading
`"harbor-"` together: `"harbor-harharbor-bor-x"` normalizes to `"harbor-x"`,
which a second normalization turns into `"x"`. -/
theorem c8_counterexample :
    preprocess_parameters "GetContainerPort"
        (preprocess_parameters "GetContainerPort"
          [("component", "harbor-harharbor-bor-x")]) ≠
      preprocess_parameters "GetContainerPort" [("component", "harbor-harharbor-bor-x")] := by
  decide

/-! ### Claim C9 -/

/-- Claim C9 counterexample: when a deployment matching the component exists but
lacks the requested sub-resource, the code does NOT answer with an explicit
"not configured" success message. For `GetContainerPort` on a matching deployment
without ports, the `for`/`else` falls through and produces the very same
`"No deployment found for component 'core'."` sentence as when no deployment
exists at all; and `GetEnvironmentVariable` (env var absent or not) has no handler
whatsoever and answers `"Query not recognized."`. -/
theorem c9_counterexample :
    create_query ⟨some "What is the container port for core?"⟩
        (.success (.object (some "GetContainerPort") (some [("component", "core")])))
        (K8s.ofCluster portlessCluster) =
      (.response "What is the container port for core?"
        "No deployment found for component 'core'.",
        [Call.classifier, Call.list_namespaced_deployment "default"]) ∧
    create_query ⟨some "What is the container port for core?"⟩
        (.success (.object (some "GetContainerPort") (some [("component", "core")])))
        (K8s.ofCluster emptyCluster) =
      (.response "What is the container port for core?"
        "No deployment found for component 'core'.",
        [Call.classifier, Call.list_namespaced_deployment "default"]) ∧
    create_query ⟨some "What is the value of CHART_CACHE_DRIVER in the core pod?"⟩
        (.success (.object (some "GetEnvironmentVariable")
          (some [("component", "core"), ("env_var", "CHART_CACHE_DRIVER")])))
        (K8s.ofCluster portlessCluster) =
      (.response "What is the value of CHART_CACHE_DRIVER in the core pod?"
        "Query not recognized.", [Call.classifier]) := by
  refine ⟨by decide, by decide, by decide⟩

/-! ### Claim C2 -/

/-- Claim C2 counterexample: for the unknown component `"frobnicator"`, validation
fails, but the message does not enumerate exactly the seven vocabulary names: the
code appends `"harbor-redis"` to the valid set, so the message lists eight names,
one of which (`"harbor-redis"`) is not in `COMPONENTS`. -/
theorem c2_counterexample :
    validate_parameters "GetContainerPort" [("component", "frobnicator")] =
      (false,
        "Invalid component name 'frobnicator'. Valid components are: core, database, jobservice, portal, redis, registry, trivy, harbor-redis.") ∧
    "harbor-redis" ∉ COMPONENTS ∧
    strHas
      "Invalid component name 'frobnicator'. Valid components are: core, database, jobservice, portal, redis, registry, trivy, harbor-redis."
      "harbor-redis" = true := by
  refine ⟨by decide, by decide, by decide⟩

/-- Claim C5 (amended): an empty or missing query text is not rejected and there is
no MalformedRequest short-circuit. Whenever the Kubernetes clients are
initialized, the pipeline invokes the classifier on the (stripped, empty) query
like any other, and the result is never an HTTP 400 response. -/
theorem c5_empty_query_reaches_classifier (q : Option String) (llm : LLMOutcome)
    (k8s : K8s) (hinit : k8s.initialized = true)
    (_hempty : strTrim (q.getD "") = "") :
    Call.classifier ∈ (create_query ⟨q⟩ llm k8s).2 ∧
      ∀ m, (create_query ⟨q⟩ llm k8s).1 ≠ HttpResult.failureResponse m 400 := by
  unfold create_query
  rw [hinit]
  rcases hc : classify_query llm with _ | ⟨i, p⟩
  · simp
  · dsimp only
    by_cases hv : (validate_parameters (i.getD "Unknown") (p.getD [])).1 = false
    · simp [hv]
    · rcases hr :
          (dispatch (i.getD "Unknown")
            (preprocess_parameters (i.getD "Unknown") (p.getD [])) k8s).1 with u | ans
      · simp [hv, hr]
      · simp [hv, hr]

/-- Claim C5 witness: the concrete empty query of `c5_counterexample` indeed
reaches the classifier. -/
theorem c5_witness :
    Call.classifier ∈
      (create_query ⟨some ""⟩ (.success (.object (some "Unknown") (some []))) stubK8s).2 :=
  (c5_empty_query_reaches_classifier (some "")
    (.success (.object (some "Unknown") (some []))) stubK8s rfl (by decide)).1

/-- Claim C1 (amended): the fail-closed-to-Unknown policy holds only for failures
of the OpenAI call itself: there `classify_query` returns the literal Unknown
fallback, the answer is the polite Unknown message, and no ClusterReader call is
made. Unparseable classifier text instead escapes to the outermost handler and the
caller receives the generic HTTP 500 error body (still no ClusterReader call, and
no raw parse-error text). A decoded intent outside the closed set is not coerced
to Unknown: it falls through the dispatch chain to `"Query not recognized."`,
also without any ClusterReader call. -/
theorem c1_fail_closed_only_for_api_failure (q : Option String) (k8s : K8s)
    (hinit : k8s.initialized = true) :
    (create_query ⟨q⟩ .failure k8s =
      (.response (strTrim (q.getD ""))
        "I'm sorry, I didn't understand your query. Could you please rephrase it?",
        [Call.classifier])) ∧
    (create_query ⟨q⟩ (.success .malformed) k8s =
      (.failureResponse "An unexpected error occurred" 500, [Call.classifier])) ∧
    (∀ intent params, intent ∉ INTENTS →
      create_query ⟨q⟩ (.success (.object (some intent) (some params))) k8s =
        (.response (strTrim (q.getD "")) "Query not recognized.", [Call.classifier])) := by
  refine ⟨?_, ?_, ?_⟩
  · unfold create_query
    rw [hinit]
    rfl
  · unfold create_query
    rw [hinit]
    rfl
  · intro intent params h
    simp only [INTENTS, List.mem_cons, List.not_mem_nil, or_false] at h
    push_neg at h
    obtain ⟨h1, h2, h3, h4, h5, h6, h7, h8, h9, h10, h11, h12, h13, h14, h15, h16,
      h17, h18⟩ := h
    unfold create_query
    rw [hinit]
    simp [classify_query, validate_parameters, preprocess_parameters, dispatch,
      h1, h2, h3, h4, h5, h6, h7, h8, h9, h10, h11, h12, h13, h14, h15, h16, h17, h18]

/-- Claim C1 witness: the three amended branches evaluated at concrete inputs. -/
theorem c1_witness :
    create_query ⟨some "hi"⟩ .failure stubK8s =
      (.response "hi"
        "I'm sorry, I didn't understand your query. Could you please rephrase it?",
        [Call.classifier]) ∧
    create_query ⟨some "hi"⟩ (.success .malformed) stubK8s =
      (.failureResponse "An unexpected error occurred" 500, [Call.classifier]) ∧
    create_query ⟨some "hi"⟩ (.success (.object (some "LaunchMissiles") (some [])))
        stubK8s =
      (.response "hi" "Query not recognized.", [Call.classifier]) :=
  ⟨(c1_fail_closed_only_for_api_failure (some "hi") stubK8s rfl).1,
    (c1_fail_closed_only_for_api_failure (some "hi") stubK8s rfl).2.1,
    (c1_fail_closed_only_for_api_failure (some "hi") stubK8s rfl).2.2
      "LaunchMissiles" [] (by decide)⟩

/-- Claim C7: `ListPods` with `namespace="all"` (case-insensitively) takes the
distinct all-namespaces code path — the trace shows a single
`list_pod_for_all_namespaces` read and no per-namespace read — and when the
cluster reports 42 pods the answer is exactly
`"There are 42 pods in the entire cluster."`. -/
theorem c7_listpods_all (q : String) (params : ParamBag) (k8s : K8s) (pods : List Pod)
    (hinit : k8s.initialized = true)
    (hall : strLower (bagGet params "namespace" "default") = "all")
    (hpods : k8s.list_pod_for_all_namespaces = Except.ok pods)
    (hcount : pods.length = 42) :
    create_query ⟨some q⟩ (.success (.object (some "ListPods") (some params))) k8s =
      (.response (strTrim q) "There are 42 pods in the entire cluster.",
        [Call.classifier, Call.list_pod_for_all_namespaces]) := by
  unfold create_query
  rw [hinit]
  simp [classify_query, validate_parameters, preprocess_parameters, dispatch, hall,
    hpods, hcount]
  rfl

/-- Claim C7 witness: the scenario run against a 42-pod cluster stub. -/
theorem c7_witness :
    create_query ⟨some "How many pods are in the cluster?"⟩
        (.success (.object (some "ListPods") (some [("namespace", "all")])))
        (K8s.ofCluster cluster42) =
      (.response "How many pods are in the cluster?"
        "There are 42 pods in the entire cluster.",
        [Call.classifier, Call.list_pod_for_all_namespaces]) :=
  c7_listpods_all "How many pods are in the cluster?" [("namespace", "all")]
    (K8s.ofCluster cluster42) cluster42.pods rfl (by decide) rfl (by decide)

/-- Claim C6 (amended): a generic (non-ApiException) ClusterReader failure during
`ListNamespaces` escapes the handler (which has no try/except) and reaches the
view's outermost `except Exception`: the outcome is HTTP 500 with the fixed body
`"An unexpected error occurred"`. The body is a constant independent of the
upstream error text, so the raw error is never included in the user-facing
response — but the outcome is not an HTTP 200 apology answer. -/
theorem c6_upstream_error_is_http_500 (q err : String) (k8s : K8s)
    (hinit : k8s.initialized = true)
    (hfail : k8s.list_namespace = .error (.other err)) :
    create_query ⟨some q⟩ (.success (.object (some "ListNamespaces") (some []))) k8s =
      (.failureResponse "An unexpected error occurred" 500,
        [Call.classifier, Call.list_namespace]) := by
  unfold create_query
  rw [hinit]
  simp [classify_query, validate_parameters, preprocess_parameters, dispatch, hfail]

/-- Claim C6 witness: the amended behavior at the concrete flaky client. -/
theorem c6_witness :
    create_query ⟨some "How many namespaces exist?"⟩
        (.success (.object (some "ListNamespaces") (some []))) flakyK8s =
      (.failureResponse "An unexpected error occurred" 500,
        [Call.classifier, Call.list_namespace]) :=
  c6_upstream_error_is_http_500 "How many namespaces exist?"
    "connection refused: https://10.0.0.1:6443/api/v1/namespaces" flakyK8s rfl rfl

/-- Claim C3 (amended): a classification of `GetContainerPort` with
`component="harbor-core"` never reaches normalization: validation runs first,
accepts only the seven vocabulary names plus the special-cased `"harbor-redis"`,
and answers with the invalid-component message without any ClusterReader call.
Prefix stripping to the bare name happens only for a value that passes
validation, i.e. `"harbor-redis"`: there normalization yields `"redis"`, and when
the first deployment of namespace `default` is labeled `component=redis` and
exposes container port 8080/TCP, the answer contains `"8080/TCP"`. -/
theorem c3_harbor_core_fails_validation (q : String) (k8s : K8s)
    (hinit : k8s.initialized = true) :
    (create_query ⟨some q⟩
        (.success (.object (some "GetContainerPort")
          (some [("component", "harbor-core")]))) k8s =
      (.response (strTrim q)
        "Invalid component name 'harbor-core'. Valid components are: core, database, jobservice, portal, redis, registry, trivy, harbor-redis.",
        [Call.classifier])) ∧
    (∀ rest : List Deployment,
      k8s.list_namespaced_deployment "default" = .ok (redisDeploy :: rest) →
      create_query ⟨some q⟩
          (.success (.object (some "GetContainerPort")
            (some [("component", "harbor-redis")]))) k8s =
        (.response (strTrim q) "The container port(s) for 'redis' are: 8080/TCP",
          [Call.classifier, Call.list_namespaced_deployment "default"]) ∧
      strHas "The container port(s) for 'redis' are: 8080/TCP" "8080/TCP" = true) := by
  constructor
  · unfold create_query
    rw [hinit]
    rfl
  · intro rest hdep
    have hd : dispatch "GetContainerPort" [("component", "redis")] k8s =
        (.ok "The container port(s) for 'redis' are: 8080/TCP",
          [.list_namespaced_deployment "default"]) := by
      unfold dispatch
      rw [hdep]
      rfl
    refine ⟨?_, by decide⟩
    unfold create_query
    rw [hinit]
    simp only [classify_query, Option.getD]
    rw [show preprocess_parameters "GetContainerPort" [("component", "harbor-redis")] =
      [("component", "redis")] from rfl]
    rw [hd]
    rfl

/-- Claim C3 witness: both amended branches at the concrete redis cluster stub. -/
theorem c3_witness :
    create_query ⟨some "Which port will the harbor redis svc route traffic to?"⟩
        (.success (.object (some "GetContainerPort")
          (some [("component", "harbor-core")]))) (K8s.ofCluster redisCluster) =
      (.response "Which port will the harbor redis svc route traffic to?"
        "Invalid component name 'harbor-core'. Valid components are: core, database, jobservice, portal, redis, registry, trivy, harbor-redis.",
        [Call.classifier]) ∧
    create_query ⟨some "Which port will the harbor redis svc route traffic to?"⟩
        (.success (.object (some "GetContainerPort")
          (some [("component", "harbor-redis")]))) (K8s.ofCluster redisCluster) =
      (.response "Which port will the harbor redis svc route traffic to?"
        "The container port(s) for 'redis' are: 8080/TCP",
        [Call.classifier, Call.list_namespaced_deployment "default"]) :=
  ⟨(c3_harbor_core_fails_validation
      "Which port will the harbor redis svc route traffic to?"
      (K8s.ofCluster redisCluster) rfl).1,
    ((c3_harbor_core_fails_validation
      "Which port will the harbor redis svc route traffic to?"
      (K8s.ofCluster redisCluster) rfl).2 [] rfl).1⟩

/-- Claim C2 (amended): for the component-scoped intents, the component
(lowercased) must lie in the seven-name vocabulary extended with the special case
`"harbor-redis"`. An accepted value always normalizes into the seven-name
vocabulary; a rejected value produces a message enumerating the seven names plus
`"harbor-redis"` — eight names, not exactly seven. -/
theorem c2_component_validation (intent : String) (params : ParamBag)
    (hintent : intent ∈ ["GetContainerPort", "GetReadinessProbePath",
      "GetEnvironmentVariable", "GetVolumeMountPath"]) :
    (strLower (bagGet params "component" "") ∈ COMPONENTS ++ ["harbor-redis"] →
      validate_parameters intent params = (true, "") ∧
      strLower (bagGet (preprocess_parameters intent params) "component" "") ∈
        COMPONENTS) ∧
    (strLower (bagGet params "component" "") ∉ COMPONENTS ++ ["harbor-redis"] →
      validate_parameters intent params =
        (false,
          "Invalid component name '" ++ strLower (bagGet params "component" "") ++
            "'. Valid components are: " ++
            "core, database, jobservice, portal, redis, registry, trivy, harbor-redis" ++
            ".")) := by
  constructor
  · intro hmem
    constructor
    · unfold validate_parameters
      rw [if_pos hintent]
      dsimp only
      rw [if_neg (not_not_intro hmem)]
    · unfold preprocess_parameters
      rw [if_pos hintent]
      dsimp only
      simp only [COMPONENTS, List.mem_append, List.mem_cons, List.not_mem_nil,
        or_false, List.mem_singleton] at hmem
      rcases hmem with (h | h | h | h | h | h | h) | h
      · rw [h, if_neg (by decide), h]; decide
      · rw [h, if_neg (by decide), h]; decide
      · rw [h, if_neg (by decide), h]; decide
      · rw [h, if_neg (by decide), h]; decide
      · rw [h, if_neg (by decide), h]; decide
      · rw [h, if_neg (by decide), h]; decide
      · rw [h, if_neg (by decide), h]; decide
      · rw [h, if_pos (by decide),
          show strRemoveAll "harbor-redis" "harbor-" = "redis" from rfl, bagGet_bagSet]
        decide
  · intro hnot
    unfold validate_parameters
    rw [if_pos hintent]
    dsimp only
    rw [if_pos hnot]
    rfl

/-- Claim C2 witness: an accepted alias (`"Harbor-Redis"`, case-insensitively
`harbor-redis`) normalizes into the vocabulary, and the rejected `"frobnicator"`
receives the eight-name message. -/
theorem c2_witness :
    (validate_parameters "GetContainerPort" [("component", "Harbor-Redis")] =
        (true, "") ∧
      strLower (bagGet (preprocess_parameters "GetContainerPort"
        [("component", "Harbor-Redis")]) "component" "") ∈ COMPONENTS) ∧
    validate_parameters "GetContainerPort" [("component", "frobnicator")] =
      (false,
        "Invalid component name '" ++ "frobnicator" ++
          "'. Valid components are: " ++
          "core, database, jobservice, portal, redis, registry, trivy, harbor-redis" ++
          ".") :=
  ⟨(c2_component_validation "GetContainerPort" [("component", "Harbor-Redis")]
      (by decide)).1 (by decide),
    (c2_component_validation "GetContainerPort" [("component", "frobnicator")]
      (by decide)).2 (by decide)⟩

/-- Claim C8 (amended): normalization is idempotent for every parameter bag whose
once-normalized component value does not begin with the vendor prefix
`"harbor-"` — in particular for every real component name. In general it is not:
removing every occurrence of `"harbor-"` can splice a new leading `"harbor-"`
together (see the counterexample), and a second normalization then strips again. -/
theorem c8_preprocess_idempotent_unless_resurfaced (intent : String) (p : ParamBag)
    (h : strStarts (strLower (bagGet (preprocess_parameters intent p) "component" ""))
      "harbor-" = false) :
    preprocess_parameters intent (preprocess_parameters intent p) =
      preprocess_parameters intent p :=
  preprocess_id_of_no_harbor intent (preprocess_parameters intent p) h

/-- Claim C8 witness: the ordinary case `component="harbor-core"` normalizes to
`"core"` and a second normalization is the identity. -/
theorem c8_witness :
    strStarts (strLower (bagGet (preprocess_parameters "GetContainerPort"
        [("component", "harbor-core")]) "component" "")) "harbor-" = false ∧
    preprocess_parameters "GetContainerPort"
        (preprocess_parameters "GetContainerPort" [("component", "harbor-core")]) =
      preprocess_parameters "GetContainerPort" [("component", "harbor-core")] :=
  ⟨by decide,
    c8_preprocess_idempotent_unless_resurfaced "GetContainerPort"
      [("component", "harbor-core")] (by decide)⟩

/-- Claim C9 (amended): when a deployment matching the component exists but lacks
the requested sub-resource, there is no distinct "not configured" success
message. For `GetContainerPort` and `GetReadinessProbePath` the scan's
`for`/`else` falls through and produces the same
`"No deployment found for component 'core'."` sentence as when no deployment
matches at all (still an HTTP 200 answer); `GetEnvironmentVariable` and
`GetVolumeMountPath` have no handler and answer `"Query not recognized."`
without any ClusterReader call. -/
theorem c9_lacking_subresource_reports_not_found (q : String) (k8s : K8s)
    (deps : List Deployment)
    (hinit : k8s.initialized = true)
    (hdeps : k8s.list_namespaced_deployment "default" = .ok deps)
    (hports : ∀ d ∈ deps,
      strLower (bagGet d.labels "app.kubernetes.io/component" "") ≠ "core" ∨
        lacksPortData d = true)
    (hprobe : ∀ d ∈ deps,
      strLower (bagGet d.labels "app.kubernetes.io/component" "") ≠ "core" ∨
        lacksProbePath d = true) :
    (create_query ⟨some q⟩ (.success (.object (some "GetContainerPort")
        (some [("component", "core")]))) k8s =
      (.response (strTrim q) "No deployment found for component 'core'.",
        [Call.classifier, Call.list_namespaced_deployment "default"])) ∧
    (create_query ⟨some q⟩ (.success (.object (some "GetReadinessProbePath")
        (some [("component", "core")]))) k8s =
      (.response (strTrim q) "No deployment found for component 'core'.",
        [Call.classifier, Call.list_namespaced_deployment "default"])) ∧
    (create_query ⟨some q⟩ (.success (.object (some "GetEnvironmentVariable")
        (some [("component", "core"), ("env_var", "CHART_CACHE_DRIVER")]))) k8s =
      (.response (strTrim q) "Query not recognized.", [Call.classifier])) ∧
    (create_query ⟨some q⟩ (.success (.object (some "GetVolumeMountPath")
        (some [("component", "core")]))) k8s =
      (.response (strTrim q) "Query not recognized.", [Call.classifier])) := by
  refine ⟨?_, ?_, ?_, ?_⟩
  · have hd1 : dispatch "GetContainerPort" [("component", "core")] k8s =
        (.ok "No deployment found for component 'core'.",
          [.list_namespaced_deployment "default"]) := by
      have e1 : dispatch "GetContainerPort" [("component", "core")] k8s =
          (match k8s.list_namespaced_deployment "default" with
           | .ok deps2 =>
             match findPortAnswer "core" "core" deps2 with
             | some answer => (.ok answer, [.list_namespaced_deployment "default"])
             | none =>
               (.ok "No deployment found for component 'core'.",
                 [.list_namespaced_deployment "default"])
           | .error _ =>
             (.ok "An error occurred while fetching container ports.",
               [.list_namespaced_deployment "default"])) := rfl
      rw [e1, hdeps]
      dsimp only
      rw [findPortAnswer_eq_none "core" "core" deps hports]
    unfold create_query
    rw [hinit]
    simp only [classify_query, Option.getD]
    rw [show preprocess_parameters "GetContainerPort" [("component", "core")] =
      [("component", "core")] from rfl]
    rw [hd1]
    rfl
  · have hd2 : dispatch "GetReadinessProbePath" [("component", "core")] k8s =
        (.ok "No deployment found for component 'core'.",
          [.list_namespaced_deployment "default"]) := by
      have e2 : dispatch "GetReadinessProbePath" [("component", "core")] k8s =
          (match k8s.list_namespaced_deployment "default" with
           | .ok deps2 =>
             match findProbeAnswer "core" "core" deps2 with
             | some answer => (.ok answer, [.list_namespaced_deployment "default"])
             | none =>
               (.ok "No deployment found for component 'core'.",
                 [.list_namespaced_deployment "default"])
           | .error _ =>
             (.ok "An error occurred while fetching readiness probe path.",
               [.list_namespaced_deployment "default"])) := rfl
      rw [e2, hdeps]
      dsimp only
      rw [findProbeAnswer_eq_none "core" "core" deps hprobe]
    unfold create_query
    rw [hinit]
    simp only [classify_query, Option.getD]
    rw [show preprocess_parameters "GetReadinessProbePath" [("component", "core")] =
      [("component", "core")] from rfl]
    rw [hd2]
    rfl
  · unfold create_query
    rw [hinit]
    rfl
  · unfold create_query
    rw [hinit]
    rfl

/-- Claim C9 witness: a `component=core` deployment in `default` whose container
has no ports and no readiness probe yields the fall-through answer, and the
unhandled intents answer with the generic fallback. -/
theorem c9_witness :
    create_query ⟨some "What is the readiness probe path for the harbor core?"⟩
        (.success (.object (some "GetReadinessProbePath") (some [("component", "core")])))
        (K8s.ofCluster portlessCluster) =
      (.response "What is the readiness probe path for the harbor core?"
        "No deployment found for component 'core'.",
        [Call.classifier, Call.list_namespaced_deployment "default"]) ∧
    create_query ⟨some "What is the readiness probe path for the harbor core?"⟩
        (.success (.object (some "GetVolumeMountPath") (some [("component", "core")])))
        (K8s.ofCluster portlessCluster) =
      (.response "What is the readiness probe path for the harbor core?"
        "Query not recognized.", [Call.classifier]) :=
  ⟨(c9_lacking_subresource_reports_not_found
      "What is the readiness probe path for the harbor core?"
      (K8s.ofCluster portlessCluster) [portlessDeploy] rfl rfl (by decide)
      (by decide)).2.1,
    (c9_lacking_subresource_reports_not_found
      "What is the readiness probe path for the harbor core?"
      (K8s.ofCluster portlessCluster) [portlessDeploy] rfl rfl (by decide)
      (by decide)).2.2.2⟩

/-- Claim C10: the `GetContainerPort` and `GetReadinessProbePath` handlers list
deployments only in the fixed namespace `"default"` — the trace contains exactly
one deployment read, with namespace `"default"`, whatever `namespace` parameter
the bag carries — so when every `default`-namespace deployment fails to match the
component, the answer is `"No deployment found for component ..."` even if a
matching deployment exists in another namespace. -/
theorem c10_component_lookup_fixed_to_default (c : Cluster) (q nsv comp : String)
    (hmem : strLower comp ∈ COMPONENTS)
    (hnone : ∀ d ∈ c.deployments, d.ns = "default" →
      strLower (bagGet d.labels "app.kubernetes.io/component" "") ≠ strLower comp) :
    (create_query ⟨some q⟩ (.success (.object (some "GetContainerPort")
        (some [("component", comp), ("namespace", nsv)]))) (K8s.ofCluster c) =
      (.response (strTrim q) ("No deployment found for component '" ++ comp ++ "'."),
        [Call.classifier, Call.list_namespaced_deployment "default"])) ∧
    (create_query ⟨some q⟩ (.success (.object (some "GetReadinessProbePath")
        (some [("component", comp), ("namespace", nsv)]))) (K8s.ofCluster c) =
      (.response (strTrim q) ("No deployment found for component '" ++ comp ++ "'."),
        [Call.classifier, Call.list_namespaced_deployment "default"])) := by
  have hne : comp ≠ "" := by
    intro h
    rw [h] at hmem
    revert hmem
    decide
  have hstarts : strStarts (strLower comp) "harbor-" = false := comps_no_harbor _ hmem
  have hvp1 : validate_parameters "GetContainerPort"
      [("component", comp), ("namespace", nsv)] = (true, "") := by
    have e : validate_parameters "GetContainerPort"
        [("component", comp), ("namespace", nsv)] =
        (if strLower comp ∉ COMPONENTS ++ ["harbor-redis"] then
          (false, "Invalid component name '" ++ strLower comp ++
            "'. Valid components are: " ++
            joinWith ", " (COMPONENTS ++ ["harbor-redis"]) ++ ".")
        else (true, "")) := rfl
    rw [e, if_neg (not_not_intro (List.mem_append_left _ hmem))]
  have hvp2 : validate_parameters "GetReadinessProbePath"
      [("component", comp), ("namespace", nsv)] = (true, "") := by
    have e : validate_parameters "GetReadinessProbePath"
        [("component", comp), ("namespace", nsv)] =
        (if strLower comp ∉ COMPONENTS ++ ["harbor-redis"] then
          (false, "Invalid component name '" ++ strLower comp ++
            "'. Valid components are: " ++
            joinWith ", " (COMPONENTS ++ ["harbor-redis"]) ++ ".")
        else (true, "")) := rfl
    rw [e, if_neg (not_not_intro (List.mem_append_left _ hmem))]
  have hpp1 : preprocess_parameters "GetContainerPort"
      [("component", comp), ("namespace", nsv)] =
        [("component", comp), ("namespace", nsv)] := by
    have e : preprocess_parameters "GetContainerPort"
        [("component", comp), ("namespace", nsv)] =
        (if strStarts (strLower comp) "harbor-" = true then
          bagSet [("component", comp), ("namespace", nsv)] "component"
            (strRemoveAll (strLower comp) "harbor-")
        else [("component", comp), ("namespace", nsv)]) := rfl
    rw [e, hstarts]
    simp
  have hpp2 : preprocess_parameters "GetReadinessProbePath"
      [("component", comp), ("namespace", nsv)] =
        [("component", comp), ("namespace", nsv)] := by
    have e : preprocess_parameters "GetReadinessProbePath"
        [("component", comp), ("namespace", nsv)] =
        (if strStarts (strLower comp) "harbor-" = true then
          bagSet [("component", comp), ("namespace", nsv)] "component"
            (strRemoveAll (strLower comp) "harbor-")
        else [("component", comp), ("namespace", nsv)]) := rfl
    rw [e, hstarts]
    simp
  have hfilter : (K8s.ofCluster c).list_namespaced_deployment "default" =
      Except.ok (c.deployments.filter (fun d => d.ns == "default")) := rfl
  have hprem : ∀ d ∈ c.deployments.filter (fun d => d.ns == "default"),
      strLower (bagGet d.labels "app.kubernetes.io/component" "") ≠ strLower comp ∨
        lacksPortData d = true := by
    intro d hd
    rcases List.mem_filter.mp hd with ⟨hmem2, hns⟩
    exact Or.inl (hnone d hmem2 (by simpa using hns))
  have hprem2 : ∀ d ∈ c.deployments.filter (fun d => d.ns == "default"),
      strLower (bagGet d.labels "app.kubernetes.io/component" "") ≠ strLower comp ∨
        lacksProbePath d = true := by
    intro d hd
    rcases List.mem_filter.mp hd with ⟨hmem2, hns⟩
    exact Or.inl (hnone d hmem2 (by simpa using hns))
  constructor
  · have hd1 : dispatch "GetContainerPort" [("component", comp), ("namespace", nsv)]
        (K8s.ofCluster c) =
        (.ok ("No deployment found for component '" ++ comp ++ "'."),
          [.list_namespaced_deployment "default"]) := by
      have e1 : dispatch "GetContainerPort" [("component", comp), ("namespace", nsv)]
          (K8s.ofCluster c) =
          (if comp ≠ "" then
            match (K8s.ofCluster c).list_namespaced_deployment "default" with
            | .ok deps2 =>
              match findPortAnswer (strLower comp) comp deps2 with
              | some answer => (.ok answer, [.list_namespaced_deployment "default"])
              | none =>
                (.ok ("No deployment found for component '" ++ comp ++ "'."),
                  [.list_namespaced_deployment "default"])
            | .error _ =>
              (.ok "An error occurred while fetching container ports.",
                [.list_namespaced_deployment "default"])
          else (.ok "Component name not provided in the query.", [])) := rfl
      rw [e1, if_pos hne, hfilter]
      dsimp only
      rw [findPortAnswer_eq_none (strLower comp) comp _ hprem]
    unfold create_query
    rw [show (K8s.ofCluster c).initialized = true from rfl]
    simp only [classify_query, Option.getD]
    rw [hvp1, hpp1, hd1]
    rfl
  · have hd2 : dispatch "GetReadinessProbePath" [("component", comp), ("namespace", nsv)]
        (K8s.ofCluster c) =
        (.ok ("No deployment found for component '" ++ comp ++ "'."),
          [.list_namespaced_deployment "default"]) := by
      have e2 : dispatch "GetReadinessProbePath" [("component", comp), ("namespace", nsv)]
          (K8s.ofCluster c) =
          (if comp ≠ "" then
            match (K8s.ofCluster c).list_namespaced_deployment "default" with
            | .ok deps2 =>
              match findProbeAnswer (strLower comp) comp deps2 with
              | some answer => (.ok answer, [.list_namespaced_deployment "default"])
              | none =>
                (.ok ("No deployment found for component '" ++ comp ++ "'."),
                  [.list_namespaced_deployment "default"])
            | .error _ =>
              (.ok "An error occurred while fetching readiness probe path.",
                [.list_namespaced_deployment "default"])
          else (.ok "Component name not provided in the query.", [])) := rfl
      rw [e2, if_pos hne, hfilter]
      dsimp only
      rw [findProbeAnswer_eq_none (strLower comp) comp _ hprem2]
    unfold create_query
    rw [show (K8s.ofCluster c).initialized = true from rfl]
    simp only [classify_query, Option.getD]
    rw [hvp2, hpp2, hd2]
    rfl

/-- Claim C10 witness: a `component=core` deployment with ports exists only in
namespace `prod`; with `namespace="prod"` supplied in the parameter bag, the
handler still lists deployments of `default` only and reports no deployment
found. -/
theorem c10_witness :
    create_query ⟨some "What is the container port for core?"⟩
        (.success (.object (some "GetContainerPort")
          (some [("component", "core"), ("namespace", "prod")])))
        (K8s.ofCluster prodCluster) =
      (.response "What is the container port for core?"
        "No deployment found for component 'core'.",
        [Call.classifier, Call.list_namespaced_deployment "default"]) :=
  (c10_component_lookup_fixed_to_default prodCluster
    "What is the container port for core?" "prod" "core" (by decide) (by decide)).1

end Cleric

